import Mathlib

/-!
Shallow embedding of the account CRUD logic of trois-six/terraform-provider-smc.

The embedding covers:
  * the terraform-plugin-framework value types `types.String`, `types.Bool`,
    `types.List` (three-state: null / unknown / known value);
  * the provider's data models (`AccountResourceModel`,
    `AccountDataSourceModel`, `SMCProviderModel`);
  * the wire shape of a remote account
    (`smc.DefinitionsAccountsAccountPropertiesWithoutPassword`) together with
    the JSON payload it is unmarshalled from;
  * the projection helpers `readAccountResourceModel` and
    `readAccountDataSourceModel`;
  * the CRUD operations of `AccountResource` (`Create`, `Update`, `Delete`),
    the collection read of `AccountsDataSource`, the single-item read of
    `AccountDataSource`, and `SMCProvider.Configure`.

HTTP traffic is represented by the response value the generated `smc` client
hands back (status code, status text, and the decoded JSON body when
decoding succeeded); a network-level failure is an `Except.error`.
-/

/-- Embedding of `basetypes.StringValue` (`types.String`): a three-state
tagged value — null, unknown, or a known string. The Go zero value is null. -/
inductive TfString where
  | null
  | unknown
  | value (s : String)
deriving DecidableEq, Repr

/-- Embedding of `basetypes.BoolValue` (`types.Bool`). -/
inductive TfBool where
  | null
  | unknown
  | value (b : Bool)
deriving DecidableEq, Repr

/-- Embedding of `basetypes.ListValue` (`types.List`) with string elements,
the only element type the provider uses. -/
inductive TfList where
  | null
  | unknown
  | value (xs : List String)
deriving DecidableEq, Repr

/-- `types.StringPointerValue`: nil pointer becomes null, otherwise known. -/
def TfString.ofPointer : Option String → TfString
  | none => .null
  | some s => .value s

/-- `types.BoolPointerValue`. -/
def TfBool.ofPointer : Option Bool → TfBool
  | none => .null
  | some b => .value b

/-- `StringValue.ValueString()`: the known value, or `""` for null/unknown. -/
def TfString.valueString : TfString → String
  | .value s => s
  | _ => ""

/-- `StringValue.IsNull()`. -/
def TfString.isNull : TfString → Bool
  | .null => true
  | _ => false

/-- Minimal model of Go's `strconv.Quote` escaping for one character: the
quote and the backslash are escaped; escaping of non-printable characters is
not modelled (no account field in any statement below contains one). -/
def goQuoteChar (c : Char) : String :=
  if c = '\"' then "\\\"" else if c = '\\' then "\\\\" else String.singleton c

/-- Go's `fmt.Sprintf("%q", s)` for the strings occurring here: the string
wrapped in double quotes, with quote and backslash escaped. -/
def goQuote (s : String) : String :=
  "\"" ++ String.join (s.data.map goQuoteChar) ++ "\""

/-- `StringValue.String()` from terraform-plugin-framework: `<unknown>` for
unknown, `<null>` for null, and the `%q`-quoted value otherwise. -/
def TfString.repr : TfString → String
  | .unknown => "<unknown>"
  | .null => "<null>"
  | .value s => goQuote s

/-- `AccountResourceModel` from the resource implementation: every attribute
is an independently nullable framework value. Field order is the Go struct
order (it fixes the JSON key order of `json.Marshal`). -/
structure AccountResourceModel where
  description : TfString
  dn : TfString
  email : TfString
  folders : TfList
  identifier : TfString
  kind : TfString
  lastUpdated : TfString
  localAuth : TfBool
  name : TfString
  password : TfString
  permissions : TfList
  uuid : TfString
deriving DecidableEq, Repr

/-- `AccountDataSourceModel` from the single-account data source. -/
structure AccountDataSourceModel where
  uuid : TfString
  description : TfString
  dn : TfString
  email : TfString
  folders : TfList
  identifier : TfString
  kind : TfString
  localAuth : TfBool
  name : TfString
  permissions : TfList
deriving DecidableEq, Repr

/-- The Go zero value of `AccountDataSourceModel` (`var data ...`, and each
`accounts[idx]` slot freshly allocated by `make`): every field null. -/
def emptyAccountDataSourceModel : AccountDataSourceModel :=
  ⟨.null, .null, .null, .null, .null, .null, .null, .null, .null, .null⟩

/-- Wire shape after Go JSON decoding into the generated client type
`smc.DefinitionsAccountsAccountPropertiesWithoutPassword`: optional fields
are pointers (nil when the key is absent or null), `Uuid` is a plain
(non-pointer) `string`. -/
structure AccountWire where
  description : Option String
  dn : Option String
  email : Option String
  folders : Option (List String)
  identifier : Option String
  kind : Option String
  localAuth : Option Bool
  name : Option String
  permissions : Option (List String)
  uuid : String
deriving DecidableEq, Repr

/-- A remote account JSON payload as sent on the wire, before Go decoding:
every key, `uuid` included, may be absent. -/
structure AccountPayload where
  description : Option String
  dn : Option String
  email : Option String
  folders : Option (List String)
  identifier : Option String
  kind : Option String
  localAuth : Option Bool
  name : Option String
  permissions : Option (List String)
  uuid : Option String
deriving DecidableEq, Repr

/-- Go `encoding/json` unmarshalling of an account payload into the
generated struct: pointer fields keep absence as nil; the non-pointer
`Uuid string` field is left at its zero value `""` when the key is absent. -/
def unmarshalAccount (p : AccountPayload) : AccountWire :=
  { description := p.description
    dn := p.dn
    email := p.email
    folders := p.folders
    identifier := p.identifier
    kind := p.kind
    localAuth := p.localAuth
    name := p.name
    permissions := p.permissions
    uuid := p.uuid.getD "" }

/-- `readAccountResourceModel` (account resource): copies each scalar through
`types.StringPointerValue`/`types.BoolPointerValue`, materializes a list
value only when the wire pointer is non-nil (otherwise the field keeps its
previous content), sets `UUID` from the plain wire string, and stamps
`LastUpdated` with the formatted current time (passed here as `now`).
`Password` is never touched. -/
def readAccountResourceModel (data : AccountResourceModel) (item : AccountWire)
    (now : String) : AccountResourceModel :=
  { data with
    description := TfString.ofPointer item.description
    dn := TfString.ofPointer item.dn
    email := TfString.ofPointer item.email
    folders := match item.folders with
      | some fs => TfList.value fs
      | none => data.folders
    identifier := TfString.ofPointer item.identifier
    kind := TfString.ofPointer item.kind
    localAuth := TfBool.ofPointer item.localAuth
    name := TfString.ofPointer item.name
    permissions := match item.permissions with
      | some ps => TfList.value ps
      | none => data.permissions
    uuid := TfString.value item.uuid
    lastUpdated := TfString.value now }

/-- `readAccountDataSourceModel` (single-account data source): identical
projection, without the `lastUpdated` stamp and without a password field. -/
def readAccountDataSourceModel (data : AccountDataSourceModel)
    (item : AccountWire) : AccountDataSourceModel :=
  { data with
    description := TfString.ofPointer item.description
    dn := TfString.ofPointer item.dn
    email := TfString.ofPointer item.email
    folders := match item.folders with
      | some fs => TfList.value fs
      | none => data.folders
    identifier := TfString.ofPointer item.identifier
    kind := TfString.ofPointer item.kind
    localAuth := TfBool.ofPointer item.localAuth
    name := TfString.ofPointer item.name
    permissions := match item.permissions with
      | some ps => TfList.value ps
      | none => data.permissions
    uuid := TfString.value item.uuid }

/-- Projection straight from a wire payload, composing Go unmarshalling with
`readAccountDataSourceModel`; this is the whole path a remote JSON body takes
into a data-source record. -/
def projectPayloadDS (data : AccountDataSourceModel) (p : AccountPayload) :
    AccountDataSourceModel :=
  readAccountDataSourceModel data (unmarshalAccount p)

/-- Projection straight from a wire payload into a resource record. -/
def projectPayloadRes (data : AccountResourceModel) (p : AccountPayload)
    (now : String) : AccountResourceModel :=
  readAccountResourceModel data (unmarshalAccount p) now

/-- A framework diagnostic: severity is always Error in the code modelled
here, so only summary and detail are kept. -/
structure Diag where
  summary : String
  detail : String
deriving DecidableEq, Repr

/-- Minimal JSON value shape for the bodies the provider emits. Only objects
occur: every field of the Go models is a framework struct whose fields are
all unexported, so `encoding/json` serializes each one as the empty object. -/
inductive GoJson where
  | obj (fields : List (String × GoJson))

/-- Whether a JSON object carries a given key at top level. -/
def GoJson.hasKey : GoJson → String → Bool
  | .obj fields, k => fields.any (fun f => f.1 = k)

/-- `json.Marshal(data)` for `AccountResourceModel`. The framework types
`types.String`, `types.Bool`, `types.List` export no fields and implement no
`json.Marshaler`, so `encoding/json` emits `{}` for every one of them; the
keys come from the struct's `json:"..."` tags in declaration order, and no
tag carries `omitempty`, so every key is always present — independently of
the record's contents. -/
def marshalAccountResourceModel (_m : AccountResourceModel) : GoJson :=
  .obj [("description", .obj []), ("dn", .obj []), ("email", .obj []),
        ("folders", .obj []), ("identifier", .obj []), ("kind", .obj []),
        ("last_updated", .obj []), ("local_auth", .obj []), ("name", .obj []),
        ("password", .obj []), ("permissions", .obj []), ("uuid", .obj [])]

/-- The `{result, success}` envelope of the mutating endpoints, as decoded
into the generated response types (`Result *Account`, `Success *bool`). -/
structure Envelope where
  result : Option AccountWire
  success : Option Bool
deriving DecidableEq, Repr

/-- Response of `PostApiAccountsWithBodyWithResponse`: HTTP status code and
text, and the decoded envelope (`JSON201`), nil unless the body parsed. -/
structure CreateResponse where
  statusCode : Nat
  status : String
  json201 : Option Envelope
deriving DecidableEq, Repr

/-- Response of `PutApiAccountsUuidWithBodyWithResponse` /
`DeleteApiAccountsUuidWithResponse` (`JSON200` envelope). -/
structure MutateResponse where
  statusCode : Nat
  status : String
  json200 : Option Envelope
deriving DecidableEq, Repr

/-- Response of `GetApiAccountsUuidWithResponse`: the single-item endpoint
returns a bare account (or null), not an envelope. -/
structure ReadOneResponse where
  statusCode : Nat
  status : String
  json200 : Option AccountWire
deriving DecidableEq, Repr

/-- The `{result: [Account], success}` envelope of the list endpoint. -/
structure ListEnvelope where
  result : Option (List AccountWire)
  success : Option Bool
deriving DecidableEq, Repr

/-- Response of `GetApiAccountsWithResponse`. -/
structure ListResponse where
  statusCode : Nat
  status : String
  json200 : Option ListEnvelope
deriving DecidableEq, Repr

/-- Outcome of one resource CRUD handler: the error diagnostics it added,
the (possibly re-projected) local record, and the state write performed —
`none` when `resp.State.Set` was never reached. -/
structure OpOutcome where
  diagErrors : List Diag
  record : AccountResourceModel
  stateWrite : Option AccountResourceModel
deriving DecidableEq, Repr

/-- `AccountResource.Create`, from the point where the plan was read into
`data`: marshal the body (`json.Marshal` cannot fail on this struct), POST,
then require status 201 and a parsed envelope with non-nil `Result`; only
then project and write state. `call` is the client result, `Except.error`
being a network-level failure. -/
def accountCreate (data : AccountResourceModel)
    (call : Except String CreateResponse) (now : String) : OpOutcome :=
  match call with
  | .error e =>
    { diagErrors := [⟨"Error Creating the SMC Account",
        "Could not read the SMC account identifier " ++
          data.identifier.valueString ++ ": " ++ e⟩]
      record := data, stateWrite := none }
  | .ok respAPI =>
    if respAPI.statusCode ≠ 201 then
      { diagErrors := [⟨"HTTP Error Creating the SMC Account",
          "HTTP status code " ++ respAPI.status ++
            " returned while creating the SMC account"⟩]
        record := data, stateWrite := none }
    else
      match respAPI.json201 with
      | none =>
        { diagErrors := [⟨"No results Reading response after creating the SMC Account",
            "No results returned after creating SMC the Account"⟩]
          record := data, stateWrite := none }
      | some env =>
        match env.result with
        | none =>
          { diagErrors := [⟨"No results Reading response after creating the SMC Account",
              "No results returned after creating SMC the Account"⟩]
            record := data, stateWrite := none }
        | some item =>
          let d := readAccountResourceModel data item now
          { diagErrors := [], record := d, stateWrite := some d }

/-- The path parameter `AccountResource.Update` hands to
`PutApiAccountsUuidWithBodyWithResponse`: the code passes
`data.UUID.String()` — the framework's quoted representation — not
`ValueString()`. -/
def updateRequestUuidParam (data : AccountResourceModel) : String :=
  data.uuid.repr

/-- The path parameter `AccountResource.Delete` hands to
`DeleteApiAccountsUuidWithResponse`: likewise `data.UUID.String()`. -/
def deleteRequestUuidParam (data : AccountResourceModel) : String :=
  data.uuid.repr

/-- The path parameter `AccountResource.Read` hands to
`GetApiAccountsUuidWithResponse`: `data.UUID.ValueString()`, the raw value. -/
def readRequestUuidParam (data : AccountResourceModel) : String :=
  data.uuid.valueString

/-- `AccountResource.Update`, from the point where the plan was read into
`data`: PUT by `data.UUID.String()`, require status 200 and a parsed
envelope with non-nil `Result`, then project and write state. -/
def accountUpdate (data : AccountResourceModel)
    (call : Except String MutateResponse) (now : String) : OpOutcome :=
  match call with
  | .error e =>
    { diagErrors := [⟨"Error Updating the SMC Account",
        "Could not update the SMC account UUID " ++ data.uuid.repr ++ ": " ++ e⟩]
      record := data, stateWrite := none }
  | .ok respAPI =>
    if respAPI.statusCode ≠ 200 then
      { diagErrors := [⟨"HTTP Error Updating the SMC Account",
          "HTTP status code " ++ respAPI.status ++
            " returned while updating the SMC account"⟩]
        record := data, stateWrite := none }
    else
      match respAPI.json200 with
      | none =>
        { diagErrors := [⟨"No results Reading response after updating the SMC Account",
            "No results returned after updating the SMC Account"⟩]
          record := data, stateWrite := none }
      | some env =>
        match env.result with
        | none =>
          { diagErrors := [⟨"No results Reading response after updating the SMC Account",
              "No results returned after updating the SMC Account"⟩]
            record := data, stateWrite := none }
        | some item =>
          let d := readAccountResourceModel data item now
          { diagErrors := [], record := d, stateWrite := some d }

/-- `AccountResource.Delete`, from the point where the prior state was read
into `data`: DELETE by `data.UUID.String()`, then only error classification —
the handler never mutates `data` and never calls `resp.State.Set` (the
framework removes the resource from state itself when no error was added). -/
def accountDelete (data : AccountResourceModel)
    (call : Except String MutateResponse) : OpOutcome :=
  match call with
  | .error e =>
    { diagErrors := [⟨"Error Deleting the SMC Account",
        "Could not delete the SMC account UUID " ++ data.uuid.repr ++ ": " ++ e⟩]
      record := data, stateWrite := none }
  | .ok respAPI =>
    if respAPI.statusCode ≠ 200 then
      { diagErrors := [⟨"HTTP Error Deleting the SMC Account",
          "HTTP status code " ++ respAPI.status ++
            " returned while deleting the SMC account"⟩]
        record := data, stateWrite := none }
    else
      match respAPI.json200 with
      | none =>
        { diagErrors := [⟨"No results Reading response after deleting the SMC Account",
            "No results returned after deleting SMC the Account"⟩]
          record := data, stateWrite := none }
      | some env =>
        match env.result with
        | none =>
          { diagErrors := [⟨"No results Reading response after deleting the SMC Account",
              "No results returned after deleting SMC the Account"⟩]
            record := data, stateWrite := none }
        | some _ =>
          { diagErrors := [], record := data, stateWrite := none }

/-- Outcome of `AccountsDataSource.Read`: either an error diagnostic, or a
state write holding the projected account list. -/
inductive ListOutcome where
  | failure (d : Diag)
  | stateWrite (accounts : List AccountDataSourceModel)
deriving DecidableEq, Repr

/-- `AccountsDataSource.Read`, from the point where the (empty) config was
read: GET the collection; status ≠ 200 or an unparsed body is an HTTP error;
a nil `Result`, an empty `Result`, a nil `Success` or `Success == false` is
a "no results" error; otherwise each element is projected into a freshly
zeroed `AccountDataSourceModel` in response order and the list is written to
state. -/
def accountsRead (call : Except String ListResponse) : ListOutcome :=
  match call with
  | .error e =>
    .failure ⟨"Error Reading SMC Accounts", "Could not read SMC accounts: " ++ e⟩
  | .ok respAPI =>
    if respAPI.statusCode ≠ 200 ∨ respAPI.json200 = none then
      .failure ⟨"HTTP Error Reading SMC Accounts",
        "HTTP status code " ++ respAPI.status ++ " returned while reading SMC accounts"⟩
    else
      match respAPI.json200 with
      | none =>
        .failure ⟨"HTTP Error Reading SMC Accounts",
          "HTTP status code " ++ respAPI.status ++ " returned while reading SMC accounts"⟩
      | some env =>
        match env.result with
        | none =>
          .failure ⟨"No results Reading SMC Accounts",
            "No results returned while reading SMC accounts"⟩
        | some items =>
          if items.length = 0 ∨ env.success = none ∨ env.success = some false then
            .failure ⟨"No results Reading SMC Accounts",
              "No results returned while reading SMC accounts"⟩
          else
            .stateWrite (items.map (readAccountDataSourceModel emptyAccountDataSourceModel))

/-- Outcome of `AccountDataSource.Read`: an error diagnostic, a silent
return (no diagnostic added, no state written), or a state write. -/
inductive DSReadOutcome where
  | failure (d : Diag)
  | silent
  | stateWrite (m : AccountDataSourceModel)
deriving DecidableEq, Repr

/-- `AccountDataSource.Read`, from the point where the configuration was
read into `data`: GET by `data.Identifier.ValueString()`; status ≠ 200 is an
HTTP error; on a 200 with nil `JSON200` an error is added only when the
configured identifier is non-null, otherwise the handler returns with
neither a diagnostic nor a state write; on a parsed body the account is
projected into `data` and written to state. -/
def accountDataSourceRead (data : AccountDataSourceModel)
    (call : Except String ReadOneResponse) : DSReadOutcome :=
  match call with
  | .error e =>
    .failure ⟨"Error Reading SMC Account",
      "Could not read SMC account identifier " ++ data.identifier.valueString ++
        ": " ++ e⟩
  | .ok account =>
    if account.statusCode ≠ 200 then
      .failure ⟨"HTTP Error Reading SMC Account",
        "HTTP status code " ++ account.status ++
          " returned for SMC account identifier " ++ data.identifier.valueString⟩
    else
      match account.json200 with
      | none =>
        if data.identifier.isNull then .silent
        else
          .failure ⟨"No results Reading SMC Account",
            "No results returned for given identifier: " ++ data.identifier.valueString⟩
      | some item =>
        .stateWrite (readAccountDataSourceModel data item)

/-- `SMCProviderModel`: the provider configuration block. -/
structure SMCProviderModel where
  hostname : TfString
  apiKey : TfString
deriving DecidableEq, Repr

/-- The process environment as `SMCProvider.Configure` observes it:
`os.Getenv` returns `""` for an unset variable. -/
structure ConfigureEnv where
  envHostname : String
  envApiKey : String
deriving DecidableEq, Repr

/-- Outcome of `SMCProvider.Configure`: either the collected error
diagnostics, or the provider proceeds to construct the SMC client with the
resolved hostname and API key (the constructor call itself belongs to the
external client library). -/
inductive ConfigureOutcome where
  | failure (ds : List Diag)
  | makeClient (hostname apiKey : String)
deriving DecidableEq, Repr

/-- `SMCProvider.Configure`, from the point where the config was read into
`data`, faithful to the source order: first both unknown-value checks
(collecting diagnostics, then returning if any); then resolution — the
environment variable is the default and a non-null config value overrides
it; then the emptiness checks: `hostname == ""` adds an error, while the
second check tests `data.APIKey.IsUnknown()` (not the resolved `apiKey`);
if no diagnostics accumulated the client is constructed. -/
def providerConfigure (data : SMCProviderModel) (env : ConfigureEnv) :
    ConfigureOutcome :=
  let unknownDiags : List Diag :=
    (if data.hostname = TfString.unknown then
      [⟨"Unknown SMC hostname",
        "The provider cannot create the SMC client as there is an unknown configuration value for the SMC hostname."⟩]
     else []) ++
    (if data.apiKey = TfString.unknown then
      [⟨"Unknown API Key hostname",
        "The provider cannot create the SMC client as there is an unknown configuration value for the SMC API Key."⟩]
     else [])
  if unknownDiags ≠ [] then .failure unknownDiags
  else
    let hostname := if data.hostname.isNull then env.envHostname
                    else data.hostname.valueString
    let apiKey := if data.apiKey.isNull then env.envApiKey
                  else data.apiKey.valueString
    let missingDiags : List Diag :=
      (if hostname = "" then
        [⟨"Missing SMC hostname",
          "The provider cannot create the SMC client as there is a missing or empty value for the SMC hostname."⟩]
       else []) ++
      (if data.apiKey = TfString.unknown then
        [⟨"Missing SMC API Key",
          "The provider cannot create the SMC client as there is a missing or empty value for the SMC API Key."⟩]
       else [])
    if missingDiags ≠ [] then .failure missingDiags
    else .makeClient hostname apiKey

/-- The `kind` values admitted by `stringvalidator.OneOf("user", "group")`
in the resource schema. -/
def allowedKinds : List String := ["user", "group"]

/-- The permission values admitted by
`listvalidator.ValueStringsAre(stringvalidator.OneOf(...))`. -/
def allowedPermissions : List String := ["smc", "sns", "console", "ssh", "api"]

/-- The password regular expression of the resource schema,
`^\$2[ayb]\$.{56}$` under Go `regexp` semantics: a full-string match of
`$2`, one of `a`/`y`/`b`, `$`, then exactly 56 characters none of which is a
newline (Go's `.` does not match `\n`). -/
def bcryptShaped (p : String) : Bool :=
  match p.data with
  | '$' :: '2' :: c :: '$' :: rest =>
    (c = 'a' || c = 'y' || c = 'b') && rest.length = 56 && rest.all (· ≠ '\n')
  | _ => false

/-- The schema validators of `AccountResource.Schema` applied to a
configuration record. Each framework validator skips a null or unknown
value; `kind` and `password` carry string validators, and the `permissions`
list validator applies its element validator to every element. Returns the
list of failed attribute names. -/
def validateAccountConfig (m : AccountResourceModel) : List String :=
  (match m.kind with
   | .value k => if k ∈ allowedKinds then [] else ["kind"]
   | _ => []) ++
  (match m.password with
   | .value p => if bcryptShaped p then [] else ["password"]
   | _ => []) ++
  (match m.permissions with
   | .value ps => if ps.all (· ∈ allowedPermissions) then [] else ["permissions"]
   | _ => [])

/-- Outcome of the host-side validation gate in front of Create: either the
configuration is rejected (naming the offending attributes) with no HTTP
request, or the POST request with its marshalled body is issued. -/
inductive GuardedCreate where
  | rejected (attrs : List String)
  | request (body : GoJson)

/-- Modelled from the spec: the host plugin runtime (an external
collaborator not part of this repository) applies the schema's declared
validators to the configuration and rejects violations before the Create
handler — and hence any network call — runs. The validators themselves are
taken from `AccountResource.Schema`; only this sequencing is spec-modelled. -/
def guardedCreate (m : AccountResourceModel) : GuardedCreate :=
  match validateAccountConfig m with
  | [] => .request (marshalAccountResourceModel m)
  | attrs => .rejected attrs

/-- The Go zero value of `AccountResourceModel`: every field null. -/
def emptyAccountResourceModel : AccountResourceModel :=
  ⟨.null, .null, .null, .null, .null, .null, .null, .null, .null, .null, .null, .null⟩

/-- The uuid of the acceptance-test account. -/
def sampleUuid : String := "75532250-c878-42f1-8871-bafa68e944d4"

/-- The wire account of the acceptance tests (scenario A of the spec). -/
def sampleWireAccount : AccountWire :=
  { description := some "some user description"
    dn := some "CN=bob,DC=company,DC=world"
    email := some "user@email.com"
    folders := some ["folder-uuid"]
    identifier := some "jdoe"
    kind := some "user"
    localAuth := some true
    name := some "Some Account name"
    permissions := some ["smc"]
    uuid := sampleUuid }

/-- A prior-state record carrying the sample uuid. -/
def sampleStateModel : AccountResourceModel :=
  { emptyAccountResourceModel with uuid := TfString.value sampleUuid }

/-- A remote payload with every key absent — in particular no `uuid`. -/
def noUuidPayload : AccountPayload :=
  ⟨none, none, none, none, none, none, none, none, none, none⟩

/-- C1: a Create invocation that got an HTTP response succeeds (adds no
error diagnostic) exactly when the status is 201 and the decoded envelope is
present with a non-nil result; every other response — any other status, 2xx
included, or a 201 with an unparsed envelope or nil result — adds a
CreateError diagnostic, leaves the record as the plan, and writes no state;
a network-level failure likewise fails. -/
theorem create_success_iff_201_with_result
    (plan : AccountResourceModel) (resp : CreateResponse) (now e : String) :
    ((accountCreate plan (.ok resp) now).diagErrors = [] ↔
      resp.statusCode = 201 ∧
        ∃ env item, resp.json201 = some env ∧ env.result = some item) ∧
    ((accountCreate plan (.ok resp) now).diagErrors ≠ [] →
      (accountCreate plan (.ok resp) now).record = plan ∧
      (accountCreate plan (.ok resp) now).stateWrite = none) ∧
    (accountCreate plan (.error e) now).diagErrors ≠ [] := by
  refine ⟨?_, ?_, by simp [accountCreate]⟩
  · simp only [accountCreate]
    split
    next h =>
      constructor
      · intro h'; simp at h'
      · rintro ⟨h201, -⟩; exact absurd h201 h
    next h =>
      have h201 : resp.statusCode = 201 := not_not.mp h
      split
      next heq => simp [heq]
      next env heq =>
        split
        next heq2 => simp [heq, heq2]
        next item heq2 => simp [heq, heq2, h201]
  · simp only [accountCreate]
    split
    next => exact fun _ => ⟨rfl, rfl⟩
    next =>
      split
      next => exact fun _ => ⟨rfl, rfl⟩
      next env _ =>
        split
        next => exact fun _ => ⟨rfl, rfl⟩
        next item _ => intro h'; exact absurd rfl h'

/-- C2: every failing Create or Update (network error, wrong status, or
missing/nil envelope result) returns the plan record unchanged and performs
no state write, and Delete never modifies the record nor writes state at
all. -/
theorem failed_mutation_preserves_record
    (plan prior : AccountResourceModel) (ccall : Except String CreateResponse)
    (mcall dcall : Except String MutateResponse) (now : String) :
    ((accountCreate plan ccall now).diagErrors ≠ [] →
      (accountCreate plan ccall now).record = plan ∧
      (accountCreate plan ccall now).stateWrite = none) ∧
    ((accountUpdate plan mcall now).diagErrors ≠ [] →
      (accountUpdate plan mcall now).record = plan ∧
      (accountUpdate plan mcall now).stateWrite = none) ∧
    ((accountDelete prior dcall).record = prior ∧
      (accountDelete prior dcall).stateWrite = none) := by
  refine ⟨?_, ?_, ?_⟩
  · cases ccall with
    | error e => exact fun _ => ⟨rfl, rfl⟩
    | ok resp =>
      simp only [accountCreate]
      split
      next => exact fun _ => ⟨rfl, rfl⟩
      next =>
        split
        next => exact fun _ => ⟨rfl, rfl⟩
        next env _ =>
          split
          next => exact fun _ => ⟨rfl, rfl⟩
          next item _ => intro h'; exact absurd rfl h'
  · cases mcall with
    | error e => exact fun _ => ⟨rfl, rfl⟩
    | ok resp =>
      simp only [accountUpdate]
      split
      next => exact fun _ => ⟨rfl, rfl⟩
      next =>
        split
        next => exact fun _ => ⟨rfl, rfl⟩
        next env _ =>
          split
          next => exact fun _ => ⟨rfl, rfl⟩
          next item _ => intro h'; exact absurd rfl h'
  · cases dcall with
    | error e => exact ⟨rfl, rfl⟩
    | ok resp =>
      simp only [accountDelete]
      split
      next => exact ⟨rfl, rfl⟩
      next =>
        split
        next => exact ⟨rfl, rfl⟩
        next env _ =>
          split
          next => exact ⟨rfl, rfl⟩
          next item _ => exact ⟨rfl, rfl⟩

/-- C3: a collection read that received HTTP 200 with a decoded envelope
raises a ListError — never a sequence — whenever the envelope's success flag
is false or absent, its result is nil, or its result is an empty list. -/
theorem list_read_fails_on_empty_or_unsuccessful
    (resp : ListResponse) (env : ListEnvelope) :
    resp.statusCode = 200 → resp.json200 = some env →
    (env.success ≠ some true ∨ env.result = none ∨ env.result = some []) →
    ∃ d, accountsRead (.ok resp) = .failure d := by
  intro h200 hj hbad
  simp only [accountsRead]
  split
  next => exact ⟨_, rfl⟩
  next =>
    split
    next => exact ⟨_, rfl⟩
    next env' heq =>
      rw [hj] at heq
      injection heq with heq
      subst heq
      split
      next => exact ⟨_, rfl⟩
      next items heq2 =>
        rw [if_pos ?_]
        · exact ⟨_, rfl⟩
        · rcases hbad with hs | hn | he
          · right
            cases hsv : env.success with
            | none => exact Or.inl rfl
            | some b =>
              cases b with
              | false => exact Or.inr rfl
              | true => exact absurd hsv hs
          · rw [heq2] at hn; exact absurd hn (by simp)
          · rw [heq2] at he
            left
            simp only [Option.some.injEq] at he
            simp [he]

/-- Witness for C1: the acceptance-test Create exchange (201 with envelope
and result) succeeds, and a 500 with no body leaves the plan record. -/
theorem create_success_iff_201_with_result_witness :
    (accountCreate emptyAccountResourceModel
      (.ok ⟨201, "201 Created", some ⟨some sampleWireAccount, some true⟩⟩)
      "now").diagErrors = [] ∧
    (accountCreate emptyAccountResourceModel
      (.ok ⟨500, "500 Internal Server Error", none⟩) "now").record =
        emptyAccountResourceModel := by
  constructor
  · exact (create_success_iff_201_with_result emptyAccountResourceModel
      ⟨201, "201 Created", some ⟨some sampleWireAccount, some true⟩⟩ "now" "e").1.mpr
      ⟨rfl, ⟨some sampleWireAccount, some true⟩, sampleWireAccount, rfl, rfl⟩
  · exact ((create_success_iff_201_with_result emptyAccountResourceModel
      ⟨500, "500 Internal Server Error", none⟩ "now" "e").2.1 (by decide)).1

/-- Witness for C2: a 500 Create, a 404 Update and a 404 Delete all leave
the record and state untouched. -/
theorem failed_mutation_preserves_record_witness :
    (accountCreate sampleStateModel
      (.ok ⟨500, "500 Internal Server Error", none⟩) "now").record = sampleStateModel ∧
    (accountUpdate sampleStateModel
      (.ok ⟨404, "404 Not Found", none⟩) "now").record = sampleStateModel ∧
    (accountDelete sampleStateModel
      (.ok ⟨404, "404 Not Found", none⟩)).stateWrite = none := by
  refine ⟨?_, ?_, ?_⟩
  · exact ((failed_mutation_preserves_record sampleStateModel sampleStateModel
      (.ok ⟨500, "500 Internal Server Error", none⟩)
      (.ok ⟨404, "404 Not Found", none⟩) (.ok ⟨404, "404 Not Found", none⟩)
      "now").1 (by decide)).1
  · exact ((failed_mutation_preserves_record sampleStateModel sampleStateModel
      (.ok ⟨500, "500 Internal Server Error", none⟩)
      (.ok ⟨404, "404 Not Found", none⟩) (.ok ⟨404, "404 Not Found", none⟩)
      "now").2.1 (by decide)).1
  · exact (failed_mutation_preserves_record sampleStateModel sampleStateModel
      (.ok ⟨500, "500 Internal Server Error", none⟩)
      (.ok ⟨404, "404 Not Found", none⟩) (.ok ⟨404, "404 Not Found", none⟩)
      "now").2.2.2

/-- Witness for C3: scenario B of the spec — an empty result with
`success = true` on HTTP 200 raises the error, not an empty sequence. -/
theorem list_read_fails_on_empty_or_unsuccessful_witness :
    ∃ d, accountsRead (.ok ⟨200, "200 OK", some ⟨some [], some true⟩⟩) =
      ListOutcome.failure d :=
  list_read_fails_on_empty_or_unsuccessful
    ⟨200, "200 OK", some ⟨some [], some true⟩⟩ ⟨some [], some true⟩
    rfl rfl (Or.inr (Or.inr rfl))

/-- C4: the claim fails on the code for the API key. With a configured
hostname but an API key absent from both configuration and environment,
`Configure` raises no configuration error and proceeds to construct the
client with an empty API key — the second emptiness check tests
`data.APIKey.IsUnknown()` (necessarily false at that point) instead of the
resolved `apiKey == ""`. The analogous hostname case does fail as claimed. -/
theorem configure_missing_api_key_not_fatal :
    providerConfigure ⟨TfString.value "https://smc.example", TfString.null⟩ ⟨"", ""⟩ =
      ConfigureOutcome.makeClient "https://smc.example" "" ∧
    (∃ ds, providerConfigure ⟨TfString.null, TfString.value "key"⟩ ⟨"", ""⟩ =
      ConfigureOutcome.failure ds) := by
  exact ⟨by decide, _, rfl⟩

/-- The body `AccountResource.Create` POSTs: `json.Marshal` of the plan
model. -/
def createRequestBody (m : AccountResourceModel) : GoJson :=
  marshalAccountResourceModel m

/-- C5: the claim fails on the code. The POSTed body always carries all
twelve tagged keys — `uuid` and `last_updated` included — each mapping to
the empty JSON object, independently of which fields the record has set:
the framework value types expose no fields to `encoding/json`. -/
theorem create_body_always_all_keys :
    (createRequestBody emptyAccountResourceModel).hasKey "uuid" = true ∧
    (createRequestBody emptyAccountResourceModel).hasKey "last_updated" = true ∧
    (createRequestBody emptyAccountResourceModel).hasKey "description" = true ∧
    emptyAccountResourceModel.description = TfString.null ∧
    (∀ m : AccountResourceModel,
      createRequestBody m = createRequestBody emptyAccountResourceModel) :=
  ⟨rfl, rfl, rfl, rfl, fun _ => rfl⟩

/-- C6: the claim fails on the code. Update and Delete pass
`data.UUID.String()` — the framework's quoted representation, with literal
double-quote characters around the value — as the `{uuid}` path parameter,
while Read passes the raw `ValueString()`. -/
theorem update_delete_uuid_param_quoted :
    sampleStateModel.uuid = TfString.value sampleUuid ∧
    updateRequestUuidParam sampleStateModel = "\"" ++ sampleUuid ++ "\"" ∧
    deleteRequestUuidParam sampleStateModel = "\"" ++ sampleUuid ++ "\"" ∧
    updateRequestUuidParam sampleStateModel ≠ sampleUuid ∧
    readRequestUuidParam sampleStateModel = sampleUuid := by decide

/-- C7: projection distinguishes absent from empty and null from set — a
nil scalar pointer yields an unset (null) local field; an absent list key
leaves a previously-unset list field unset, never an empty list (the null
and empty-list states are distinct values); a present zero-length list
yields a set, empty local list; and a present list is materialized
element-by-element in remote order — in both the data-source and the
resource projection. -/
theorem projection_absent_vs_empty
    (dsData : AccountDataSourceModel) (resData : AccountResourceModel)
    (item : AccountWire) (now : String) :
    (item.description = none →
      (readAccountDataSourceModel dsData item).description = TfString.null) ∧
    (item.localAuth = none →
      (readAccountDataSourceModel dsData item).localAuth = TfBool.null) ∧
    (dsData.folders = TfList.null → item.folders = none →
      (readAccountDataSourceModel dsData item).folders = TfList.null) ∧
    (item.folders = some [] →
      (readAccountDataSourceModel dsData item).folders = TfList.value []) ∧
    (∀ fs, item.folders = some fs →
      (readAccountDataSourceModel dsData item).folders = TfList.value fs) ∧
    (∀ ps, item.permissions = some ps →
      (readAccountDataSourceModel dsData item).permissions = TfList.value ps) ∧
    (resData.folders = TfList.null → item.folders = none →
      (readAccountResourceModel resData item now).folders = TfList.null) ∧
    (item.folders = some [] →
      (readAccountResourceModel resData item now).folders = TfList.value []) ∧
    TfList.null ≠ TfList.value [] := by
  refine ⟨?_, ?_, ?_, ?_, ?_, ?_, ?_, ?_, by decide⟩
  · intro h; simp [readAccountDataSourceModel, h, TfString.ofPointer]
  · intro h; simp [readAccountDataSourceModel, h, TfBool.ofPointer]
  · intro hd h; simp [readAccountDataSourceModel, h, hd]
  · intro h; simp [readAccountDataSourceModel, h]
  · intro fs h; simp [readAccountDataSourceModel, h]
  · intro ps h; simp [readAccountDataSourceModel, h]
  · intro hd h; simp [readAccountResourceModel, h, hd]
  · intro h; simp [readAccountResourceModel, h]

/-- Witness for C7: on a zeroed record, an omitted `folders` key stays
unset, `folders: []` becomes a set empty list, and the sample account's
lists land in remote order. -/
theorem projection_absent_vs_empty_witness :
    (readAccountDataSourceModel emptyAccountDataSourceModel
      (unmarshalAccount noUuidPayload)).folders = TfList.null ∧
    (readAccountDataSourceModel emptyAccountDataSourceModel
      { sampleWireAccount with folders := some [] }).folders = TfList.value [] ∧
    (readAccountDataSourceModel emptyAccountDataSourceModel
      sampleWireAccount).folders = TfList.value ["folder-uuid"] ∧
    (readAccountDataSourceModel emptyAccountDataSourceModel
      (unmarshalAccount noUuidPayload)).description = TfString.null := by
  refine ⟨?_, ?_, ?_, ?_⟩
  · exact (projection_absent_vs_empty emptyAccountDataSourceModel
      emptyAccountResourceModel (unmarshalAccount noUuidPayload) "now").2.2.1 rfl rfl
  · exact (projection_absent_vs_empty emptyAccountDataSourceModel
      emptyAccountResourceModel { sampleWireAccount with folders := some [] }
      "now").2.2.2.1 rfl
  · exact (projection_absent_vs_empty emptyAccountDataSourceModel
      emptyAccountResourceModel sampleWireAccount "now").2.2.2.2.1 ["folder-uuid"] rfl
  · exact (projection_absent_vs_empty emptyAccountDataSourceModel
      emptyAccountResourceModel (unmarshalAccount noUuidPayload) "now").1 rfl

/-- C8 counterexample: a remote payload with no `uuid` key does not make
projection fail — it produces a record, namely the zeroed record with its
uuid set to the (empty) unmarshalled string; no MappingError exists. -/
theorem projection_missing_uuid_yields_record :
    projectPayloadDS emptyAccountDataSourceModel noUuidPayload =
      { emptyAccountDataSourceModel with uuid := TfString.value "" } := by decide

/-- C8 amended: projection never fails on a payload whose uuid is absent;
Go unmarshalling turns the absent key into the empty string and projection
produces a record whose uuid is set to `""`, in both the data-source and
the resource path. -/
theorem projection_missing_uuid_empty_string
    (dsData : AccountDataSourceModel) (resData : AccountResourceModel)
    (p : AccountPayload) (now : String) :
    p.uuid = none →
    (projectPayloadDS dsData p).uuid = TfString.value "" ∧
    (projectPayloadRes resData p now).uuid = TfString.value "" := by
  intro h
  constructor
  · simp [projectPayloadDS, unmarshalAccount, readAccountDataSourceModel, h]
  · simp [projectPayloadRes, unmarshalAccount, readAccountResourceModel, h]

/-- Witness for the amended C8 at the all-absent payload. -/
theorem projection_missing_uuid_empty_string_witness :
    (projectPayloadDS emptyAccountDataSourceModel noUuidPayload).uuid =
      TfString.value "" ∧
    (projectPayloadRes emptyAccountResourceModel noUuidPayload "now").uuid =
      TfString.value "" :=
  projection_missing_uuid_empty_string emptyAccountDataSourceModel
    emptyAccountResourceModel noUuidPayload "now" rfl

/-- C9: a configuration whose kind is outside user/group, or that has a
permission element outside the allowed five, or whose password is not
bcrypt-shaped, is rejected by the schema validators with a non-empty set of
failed attributes, and the guarded Create issues no request. -/
theorem invalid_account_rejected_before_request (m : AccountResourceModel) :
    ((∃ k, m.kind = TfString.value k ∧ k ∉ allowedKinds) ∨
     (∃ ps p, m.permissions = TfList.value ps ∧ p ∈ ps ∧ p ∉ allowedPermissions) ∨
     (∃ pw, m.password = TfString.value pw ∧ bcryptShaped pw = false)) →
    ∃ attrs, attrs ≠ [] ∧ guardedCreate m = GuardedCreate.rejected attrs := by
  intro h
  have hne : validateAccountConfig m ≠ [] := by
    rcases h with ⟨k, hk, hnk⟩ | ⟨ps, p, hps, hpin, hpn⟩ | ⟨pw, hpw, hbs⟩
    · unfold validateAccountConfig
      rw [hk]
      simp [hnk]
    · unfold validateAccountConfig
      rw [hps]
      have hall : ¬ (ps.all (· ∈ allowedPermissions) = true) := by
        intro hc
        have := List.all_eq_true.mp hc p hpin
        exact hpn (by simpa using this)
      simp [hall]
    · unfold validateAccountConfig
      rw [hpw]
      simp [hbs]
  cases hl : validateAccountConfig m with
  | nil => exact absurd hl hne
  | cons a as =>
    refine ⟨a :: as, by simp, ?_⟩
    unfold guardedCreate
    rw [hl]

/-- Witness for C9: enum validation — `kind = "admin"` is rejected and no
request is issued. -/
theorem invalid_account_rejected_before_request_witness :
    ∃ attrs, attrs ≠ [] ∧
      guardedCreate { emptyAccountResourceModel with kind := TfString.value "admin" } =
        GuardedCreate.rejected attrs :=
  invalid_account_rejected_before_request
    { emptyAccountResourceModel with kind := TfString.value "admin" }
    (Or.inl ⟨"admin", rfl, by decide⟩)

/-- C10: on the single-account data source, an HTTP 200 whose body did not
decode is a silent no-op — no diagnostic, no state write — exactly when the
configured identifier is null; with a non-null identifier the same response
raises an error. -/
theorem ds_read_null_body_silent_iff_null_identifier
    (data : AccountDataSourceModel) (resp : ReadOneResponse) :
    resp.statusCode = 200 → resp.json200 = none →
    (data.identifier = TfString.null →
      accountDataSourceRead data (.ok resp) = DSReadOutcome.silent) ∧
    (data.identifier ≠ TfString.null →
      ∃ d, accountDataSourceRead data (.ok resp) = DSReadOutcome.failure d) := by
  intro h200 hnil
  simp only [accountDataSourceRead]
  rw [if_neg (by simp [h200])]
  constructor
  · intro hid
    simp [hnil, hid, TfString.isNull]
  · intro hid
    have hfalse : data.identifier.isNull = false := by
      cases hd : data.identifier with
      | null => exact absurd hd hid
      | unknown => rfl
      | value s => rfl
    simp [hnil, hfalse]

/-- Witness for C10: a 200 with undecoded body — silent with a null
identifier, an error with `identifier = "jdoe"`. -/
theorem ds_read_null_body_silent_witness :
    accountDataSourceRead emptyAccountDataSourceModel
      (.ok ⟨200, "200 OK", none⟩) = DSReadOutcome.silent ∧
    ∃ d, accountDataSourceRead
      { emptyAccountDataSourceModel with identifier := TfString.value "jdoe" }
      (.ok ⟨200, "200 OK", none⟩) = DSReadOutcome.failure d := by
  constructor
  · exact (ds_read_null_body_silent_iff_null_identifier
      emptyAccountDataSourceModel ⟨200, "200 OK", none⟩ rfl rfl).1 rfl
  · exact (ds_read_null_body_silent_iff_null_identifier
      { emptyAccountDataSourceModel with identifier := TfString.value "jdoe" }
      ⟨200, "200 OK", none⟩ rfl rfl).2 (by decide)
